import Mathlib

/-!
Verification development for the goxcel template-validation engine.

The repository ships the engine behind the example program
`examples/template_validation/main.go`; the engine's own source file is not
part of the snapshot, so every definition below that belongs to the engine is
modelled from the specification (its doc comment says so and names the missing
Go symbol).  The data model follows spec section 3, the checks follow spec
sections 4.3 to 4.6.
-/

namespace Goxcel

/-- Modelled from the spec: the goxcel CellType enumeration
(String, Number, Boolean, Date, Empty/Unknown); the engine's Go source is
absent from the snapshot. -/
inductive CellType
  | string
  | number
  | boolean
  | date
  | empty
deriving DecidableEq

/-- Modelled from the spec: goxcel TypeStrictness
(Strict = 100 percent of sampled values must match, Lenient = at least
50 percent). -/
inductive TypeStrictness
  | strict
  | lenient
deriving DecidableEq

/-- Modelled from the spec: a goxcel Table — name, ordered header strings and
typed data rows (each cell carries its inferred CellType). -/
structure Table where
  name : String
  headers : List String
  rows : List (List CellType)
deriving DecidableEq

/-- Modelled from the spec: a goxcel Sheet — a name and an ordered sequence of
tables. -/
structure Sheet where
  name : String
  tables : List Table
deriving DecidableEq

/-- Modelled from the spec: a goxcel Workbook — an ordered sequence of
sheets. -/
structure Workbook where
  sheets : List Sheet
deriving DecidableEq

/-- Modelled from the spec: the goxcel SheetSchema value with its public
fields; a tableName of the empty string means "auto-detect the first table",
and maxRows of 0 (the Go zero value) means "unbounded above". -/
structure SheetSchema where
  tableName : String
  requiredColumns : List String
  optionalColumns : List String
  columnTypes : List (String × CellType)
  typeStrictness : TypeStrictness
  expectOrder : Bool
  strictColumns : Bool
  minRows : Nat
  maxRows : Nat
  allowEmpty : Bool
deriving DecidableEq

/-- Modelled from the spec: the SheetSchema whose fields are all at their Go
zero value (TypeStrictness defaults to Strict). -/
def SheetSchema.zero : SheetSchema :=
  ⟨"", [], [], [], TypeStrictness.strict, false, false, 0, 0, false⟩

/-- Modelled from the spec: the goxcel Template value with its public fields
Name, RequiredSheets, StrictSheets and SheetSchemas (the Go map is modelled as
an association list whose lookup takes the first matching key). -/
structure Template where
  name : String
  requiredSheets : List String
  strictSheets : Bool
  sheetSchemas : List (String × SheetSchema)
deriving DecidableEq

/-- Modelled from the spec: the goxcel ValidationError kind enumeration. -/
inductive ErrorType
  | missingSheet
  | unexpectedSheet
  | missingTable
  | missingColumn
  | unexpectedColumn
  | columnOrder
  | columnType
  | rowCount
deriving DecidableEq

/-- Modelled from the spec: a goxcel ValidationError — kind, message and the
sheet/table/column plus expected/actual diagnostic fields. -/
structure ValidationError where
  type : ErrorType
  message : String
  sheet : String
  table : String
  column : String
  expected : String
  actual : String
deriving DecidableEq

/-- Renders a CellType for the expected/actual diagnostic fields. -/
def CellType.render : CellType → String
  | CellType.string => "String"
  | CellType.number => "Number"
  | CellType.boolean => "Boolean"
  | CellType.date => "Date"
  | CellType.empty => "Empty"

/-- Modelled from the spec: the MissingSheet error value. -/
def missingSheetErr (s : String) : ValidationError :=
  ⟨ErrorType.missingSheet, "required sheet not found: " ++ s, s, "", "", "", ""⟩

/-- Modelled from the spec: the UnexpectedSheet error value. -/
def unexpectedSheetErr (s : String) : ValidationError :=
  ⟨ErrorType.unexpectedSheet, "unexpected sheet: " ++ s, s, "", "", "", ""⟩

/-- Modelled from the spec: the MissingTable error value. -/
def missingTableErr (sh tb : String) : ValidationError :=
  ⟨ErrorType.missingTable, "table not found in sheet: " ++ sh, sh, tb, "", "", ""⟩

/-- Modelled from the spec: the MissingColumn error value. -/
def missingColumnErr (sh tb c : String) : ValidationError :=
  ⟨ErrorType.missingColumn, "required column not found: " ++ c, sh, tb, c, "", ""⟩

/-- Modelled from the spec: the UnexpectedColumn error value. -/
def unexpectedColumnErr (sh tb c : String) : ValidationError :=
  ⟨ErrorType.unexpectedColumn, "unexpected column: " ++ c, sh, tb, c, "", ""⟩

/-- Modelled from the spec: the ColumnOrder error value, identifying the first
mismatch position. -/
def columnOrderErr (sh tb : String) (pos : Nat) : ValidationError :=
  ⟨ErrorType.columnOrder, "column order mismatch at position " ++ toString pos,
    sh, tb, "", "", toString pos⟩

/-- Modelled from the spec: the ColumnType error value carrying the expected
type and the most common observed type among the mismatching cells. -/
def columnTypeErr (sh tb c : String) (exp act : CellType) : ValidationError :=
  ⟨ErrorType.columnType, "column type mismatch: " ++ c, sh, tb, c,
    exp.render, act.render⟩

/-- Modelled from the spec: the RowCount error value with
expected = "[MinRows,MaxRows]" and actual = the observed row count. -/
def rowCountErr (sh tb : String) (mn mx n : Nat) : ValidationError :=
  ⟨ErrorType.rowCount, "row count out of bounds", sh, tb, "",
    "[" ++ toString mn ++ "," ++ toString mx ++ "]", toString n⟩

/-- Modelled from the spec: locate a sheet by name — first match wins. -/
def findSheet (wb : Workbook) (name : String) : Option Sheet :=
  wb.sheets.find? (fun sh => decide (sh.name = name))

/-- The sheet names that are keys of the template's SheetSchemas mapping. -/
def schemaKeys (tpl : Template) : List String :=
  tpl.sheetSchemas.map Prod.fst

/-- Modelled from the spec: index of a column name in the table's header row
(first occurrence). -/
def columnIdx (t : Table) (col : String) : Option Nat :=
  t.headers.findIdx? (fun h => decide (h = col))

/-- Modelled from the spec: the sampled cells of one column — every data row's
cell at the column's header index (rows too short to reach it contribute
nothing). -/
def columnCells (t : Table) (col : String) : List CellType :=
  match columnIdx t col with
  | none => []
  | some i => t.rows.filterMap (fun r => r.get? i)

/-- Modelled from the spec: the sampled cells of a column that are not
empty/blank (these form the denominator of the type-check fraction). -/
def nonEmptyCells (t : Table) (col : String) : List CellType :=
  (columnCells t col).filter (fun c => decide (c ≠ CellType.empty))

/-- Number of sampled non-empty cells of a column. -/
def nonEmptyCount (t : Table) (col : String) : Nat :=
  (nonEmptyCells t col).length

/-- Number of sampled non-empty cells of a column whose inferred type equals
the expected type. -/
def matchCount (t : Table) (col : String) (exp : CellType) : Nat :=
  ((nonEmptyCells t col).filter (fun c => decide (c = exp))).length

/-- The sampled non-empty cells of a column whose inferred type differs from
the expected type. -/
def mismatchCells (t : Table) (col : String) (exp : CellType) : List CellType :=
  (nonEmptyCells t col).filter (fun c => decide (c ≠ exp))

/-- How many cells of the list have the given type. -/
def typeCount (cells : List CellType) (ty : CellType) : Nat :=
  (cells.filter (fun c => decide (c = ty))).length

/-- Modelled from the spec: the most common observed type among a list of
cells (used for the actual field of a ColumnType error). -/
def mostCommonType (cells : List CellType) : CellType :=
  cells.foldl
    (fun best c => if typeCount cells best < typeCount cells c then c else best)
    CellType.empty

/-- Modelled from the spec: whether the type check fails for one column —
Strict fails when not all non-empty sampled cells match, Lenient when fewer
than half match; a column with no non-empty sampled cells (in particular a
column absent from the headers) never fails. -/
def columnTypeFails (t : Table) (st : TypeStrictness) (col : String)
    (exp : CellType) : Bool :=
  if nonEmptyCount t col = 0 then false
  else
    match st with
    | TypeStrictness.strict => decide (matchCount t col exp < nonEmptyCount t col)
    | TypeStrictness.lenient =>
        decide (2 * matchCount t col exp < nonEmptyCount t col)

/-- Modelled from the spec: required-column check — one MissingColumn error per
required name absent from the headers (case-sensitive exact match). -/
def checkRequiredColumns (sh tb : String) (t : Table) (s : SheetSchema) :
    List ValidationError :=
  s.requiredColumns.filterMap
    (fun c => if c ∈ t.headers then none else some (missingColumnErr sh tb c))

/-- Index of the first position at which two lists disagree (the length of the
common prefix). -/
def firstMismatch : List String → List String → Nat
  | x :: xs, y :: ys => if x = y then firstMismatch xs ys + 1 else 0
  | _, _ => 0

/-- Modelled from the spec: the table's header list filtered down to the
members of RequiredColumns. -/
def orderedRequired (t : Table) (s : SheetSchema) : List String :=
  t.headers.filter (fun h => decide (h ∈ s.requiredColumns))

/-- Modelled from the spec: order check — only when ExpectOrder, compare the
filtered header subsequence element-wise to RequiredColumns; any deviation is
a single ColumnOrder error at the first mismatch position. -/
def checkColumnOrder (sh tb : String) (t : Table) (s : SheetSchema) :
    List ValidationError :=
  if s.expectOrder = false then []
  else if orderedRequired t s = s.requiredColumns then []
  else [columnOrderErr sh tb (firstMismatch (orderedRequired t s) s.requiredColumns)]

/-- Modelled from the spec: strict-column check — only when StrictColumns, one
UnexpectedColumn error per header not in RequiredColumns or OptionalColumns. -/
def checkStrictColumns (sh tb : String) (t : Table) (s : SheetSchema) :
    List ValidationError :=
  if s.strictColumns = false then []
  else
    t.headers.filterMap
      (fun h =>
        if h ∈ s.requiredColumns ∨ h ∈ s.optionalColumns then none
        else some (unexpectedColumnErr sh tb h))

/-- Modelled from the spec: column-type check — for each (column, expected
type) entry, a ColumnType error exactly when the sampled fraction fails the
strictness threshold; the actual field reports the most common type among the
mismatching cells. -/
def checkColumnTypes (sh tb : String) (t : Table) (s : SheetSchema) :
    List ValidationError :=
  s.columnTypes.filterMap
    (fun p =>
      if columnTypeFails t s.typeStrictness p.1 p.2 = true then
        some (columnTypeErr sh tb p.1 p.2 (mostCommonType (mismatchCells t p.1 p.2)))
      else none)

/-- Modelled from the spec: row-count check — with n the number of data rows,
an error when n is 0 with AllowEmpty false and MinRows positive, or generally
when n is below MinRows or above a non-zero MaxRows (MaxRows 0 means
unbounded, so no upper check). -/
def checkRowCount (sh tb : String) (t : Table) (s : SheetSchema) :
    List ValidationError :=
  if (t.rows.length = 0 ∧ s.allowEmpty = false ∧ 0 < s.minRows) ∨
      t.rows.length < s.minRows ∨
      (s.maxRows ≠ 0 ∧ s.maxRows < t.rows.length) then
    [rowCountErr sh tb s.minRows s.maxRows t.rows.length]
  else []

/-- Modelled from the spec: all schema-level checks on a resolved table, in
the fixed order required columns, order, strict columns, column types, row
count; every check runs, nothing short-circuits. -/
def checkSchema (sh tb : String) (t : Table) (s : SheetSchema) :
    List ValidationError :=
  checkRequiredColumns sh tb t s ++ checkColumnOrder sh tb t s ++
    checkStrictColumns sh tb t s ++ checkColumnTypes sh tb t s ++
    checkRowCount sh tb t s

/-- Modelled from the spec: resolve the target table of a schema — the named
table when the schema names one, else the sheet's first table. -/
def resolveTable (sh : Sheet) (s : SheetSchema) : Option Table :=
  if s.tableName = "" then sh.tables.head?
  else sh.tables.find? (fun t => decide (t.name = s.tableName))

/-- Modelled from the spec: the errors contributed by one SheetSchemas entry —
nothing when the sheet is absent (only the checks depending on it are
skipped), a MissingTable error when the table cannot be resolved, else the
schema checks on the resolved table. -/
def sheetEntryErrors (wb : Workbook) (p : String × SheetSchema) :
    List ValidationError :=
  match findSheet wb p.1 with
  | none => []
  | some sh =>
      match resolveTable sh p.2 with
      | none => [missingTableErr p.1 p.2.tableName]
      | some t => checkSchema p.1 t.name t p.2

/-- Modelled from the spec: the TablesValidated contribution of one
SheetSchemas entry — the resolved table's identifier, when it resolves. -/
def sheetEntryTables (wb : Workbook) (p : String × SheetSchema) : List String :=
  match findSheet wb p.1 with
  | none => []
  | some sh =>
      match resolveTable sh p.2 with
      | none => []
      | some t => [p.1 ++ "/" ++ t.name]

/-- Modelled from the spec: step 1 of the engine — one MissingSheet error per
required sheet name with no matching sheet in the workbook. -/
def missingSheetErrors (wb : Workbook) (tpl : Template) : List ValidationError :=
  tpl.requiredSheets.filterMap
    (fun n =>
      match findSheet wb n with
      | some _ => none
      | none => some (missingSheetErr n))

/-- Modelled from the spec: step 2 of the engine — only when StrictSheets, one
UnexpectedSheet error per workbook sheet named neither in RequiredSheets nor
among the SheetSchemas keys. -/
def unexpectedSheetErrors (wb : Workbook) (tpl : Template) :
    List ValidationError :=
  if tpl.strictSheets = false then []
  else
    wb.sheets.filterMap
      (fun sh =>
        if sh.name ∈ tpl.requiredSheets ∨ sh.name ∈ schemaKeys tpl then none
        else some (unexpectedSheetErr sh.name))

/-- Modelled from the spec: step 3 of the engine — the schema checks of every
SheetSchemas entry, sheet loop outer, schema checks inner. -/
def schemaErrors (wb : Workbook) (tpl : Template) : List ValidationError :=
  tpl.sheetSchemas.flatMap (sheetEntryErrors wb)

/-- Modelled from the spec: the required sheet names that were actually
located in the workbook. -/
def sheetsValidatedList (wb : Workbook) (tpl : Template) : List String :=
  tpl.requiredSheets.filter (fun n => (findSheet wb n).isSome)

/-- Modelled from the spec: the table identifiers actually located and
checked. -/
def tablesValidatedList (wb : Workbook) (tpl : Template) : List String :=
  tpl.sheetSchemas.flatMap (sheetEntryTables wb)

/-- Modelled from the spec: the goxcel ValidationResult — overall validity,
ordered error list, sheets and tables actually checked, plus the template
name used by Summary. -/
structure ValidationResult where
  templateName : String
  valid : Bool
  errors : List ValidationError
  sheetsValidated : List String
  tablesValidated : List String
deriving DecidableEq

/-- Modelled from the spec: goxcel ValidateTemplate — runs steps 1 to 3,
accumulating every error in detection order, and Valid holds exactly when the
error list is empty. -/
def ValidateTemplate (wb : Workbook) (tpl : Template) : ValidationResult :=
  ⟨tpl.name,
    (missingSheetErrors wb tpl ++ unexpectedSheetErrors wb tpl ++
      schemaErrors wb tpl).isEmpty,
    missingSheetErrors wb tpl ++ unexpectedSheetErrors wb tpl ++
      schemaErrors wb tpl,
    sheetsValidatedList wb tpl,
    tablesValidatedList wb tpl⟩

/-- Modelled from the spec: ValidationResult.Summary — a one-line rendering
naming the template and the error count. -/
def ValidationResult.summary (r : ValidationResult) : String :=
  if r.errors.isEmpty then "template " ++ r.templateName ++ ": valid"
  else "template " ++ r.templateName ++ ": " ++ toString r.errors.length ++
    " error(s)"

/-- Modelled from the spec: goxcel ValidateColumns — walks the given names in
caller order, collecting those not found in the table's headers. -/
def ValidateColumns (t : Table) (names : List String) : List String :=
  names.foldl (fun acc n => if n ∈ t.headers then acc else acc ++ [n]) []

/-- The anonymous schema used by quick validation: it only requires the given
columns. -/
def quickSchema (cols : List String) : SheetSchema :=
  ⟨"", cols, [], [], TypeStrictness.strict, false, false, 0, 0, false⟩

/-- Definition following the spec's words for the refinement claim about
QuickValidate: a Template with no required-sheets constraint and a single
anonymous Schema requiring the given columns in the workbook's first sheet's
first table. -/
def quickTemplate (wb : Workbook) (cols : List String) : Template :=
  ⟨"QuickValidation", [], false,
    match wb.sheets.head? with
    | none => []
    | some sh => [(sh.name, quickSchema cols)]⟩

/-- Modelled from the spec: goxcel QuickValidate — checks the given required
columns directly against the first table of the workbook's first sheet and
assembles the ValidationResult itself. -/
def QuickValidate (wb : Workbook) (cols : List String) : ValidationResult :=
  match wb.sheets.head? with
  | none => ⟨"QuickValidation", true, [], [], []⟩
  | some sh =>
      match sh.tables.head? with
      | none =>
          ⟨"QuickValidation", false, [missingTableErr sh.name ""], [], []⟩
      | some t =>
          ⟨"QuickValidation",
            (checkSchema sh.name t.name t (quickSchema cols)).isEmpty,
            checkSchema sh.name t.name t (quickSchema cols),
            [], [sh.name ++ "/" ++ t.name]⟩

/-- Modelled from the spec: the goxcel schema builder — accumulates the fields
of a SheetSchema and freezes them at Build. -/
structure SchemaBuilder where
  schema : SheetSchema

/-- Modelled from the spec: goxcel NewSchema. -/
def NewSchema : SchemaBuilder := ⟨SheetSchema.zero⟩

/-- Modelled from the spec: SchemaBuilder.RequireColumns appends to
RequiredColumns preserving call order. -/
def SchemaBuilder.requireColumns (b : SchemaBuilder) (names : List String) :
    SchemaBuilder :=
  ⟨{ b.schema with requiredColumns := b.schema.requiredColumns ++ names }⟩

/-- Modelled from the spec: SchemaBuilder.OptionalColumns appends to
OptionalColumns. -/
def SchemaBuilder.optionalColumns (b : SchemaBuilder) (names : List String) :
    SchemaBuilder :=
  ⟨{ b.schema with optionalColumns := b.schema.optionalColumns ++ names }⟩

/-- Modelled from the spec: SchemaBuilder.ColumnType records an expected type
for a column. -/
def SchemaBuilder.columnType (b : SchemaBuilder) (c : String) (ty : CellType) :
    SchemaBuilder :=
  ⟨{ b.schema with columnTypes := b.schema.columnTypes ++ [(c, ty)] }⟩

/-- Modelled from the spec: SchemaBuilder.TypeStrictness overrides the default
Strict level. -/
def SchemaBuilder.setTypeStrictness (b : SchemaBuilder) (st : TypeStrictness) :
    SchemaBuilder :=
  ⟨{ b.schema with typeStrictness := st }⟩

/-- Modelled from the spec: SchemaBuilder.ExpectOrder. -/
def SchemaBuilder.setExpectOrder (b : SchemaBuilder) : SchemaBuilder :=
  ⟨{ b.schema with expectOrder := true }⟩

/-- Modelled from the spec: SchemaBuilder.StrictColumns. -/
def SchemaBuilder.setStrictColumns (b : SchemaBuilder) : SchemaBuilder :=
  ⟨{ b.schema with strictColumns := true }⟩

/-- Modelled from the spec: SchemaBuilder.RowCount sets MinRows and
MaxRows. -/
def SchemaBuilder.rowCount (b : SchemaBuilder) (mn mx : Nat) : SchemaBuilder :=
  ⟨{ b.schema with minRows := mn, maxRows := mx }⟩

/-- Modelled from the spec: SchemaBuilder.Build freezes the schema. -/
def SchemaBuilder.build (b : SchemaBuilder) : SheetSchema := b.schema

/-- Modelled from the spec: the goxcel template builder — accumulates the
fields of a Template and freezes them at Build. -/
structure TemplateBuilder where
  name : String
  requiredSheets : List String
  strictSheets : Bool
  sheetSchemas : List (String × SheetSchema)

/-- Modelled from the spec: goxcel NewTemplate. -/
def NewTemplate (n : String) : TemplateBuilder := ⟨n, [], false, []⟩

/-- Modelled from the spec: TemplateBuilder.RequireSheets appends the names in
call order (duplicates tolerated until Build). -/
def TemplateBuilder.requireSheets (b : TemplateBuilder) (names : List String) :
    TemplateBuilder :=
  ⟨b.name, b.requiredSheets ++ names, b.strictSheets, b.sheetSchemas⟩

/-- Replace the binding of a key in an association list, or append a new
binding when the key is absent (Go map assignment). -/
def upsertSchema : List (String × SheetSchema) → String → SheetSchema →
    List (String × SheetSchema)
  | [], k, v => [(k, v)]
  | p :: rest, k, v =>
      if p.1 = k then (k, v) :: rest else p :: upsertSchema rest k v

/-- Modelled from the spec: TemplateBuilder.Sheet associates a schema with a
sheet name, overwriting any prior association for the same name. -/
def TemplateBuilder.sheet (b : TemplateBuilder) (k : String) (s : SheetSchema) :
    TemplateBuilder :=
  ⟨b.name, b.requiredSheets, b.strictSheets, upsertSchema b.sheetSchemas k s⟩

/-- Modelled from the spec: TemplateBuilder.StrictSheets. -/
def TemplateBuilder.setStrictSheets (b : TemplateBuilder) : TemplateBuilder :=
  ⟨b.name, b.requiredSheets, true, b.sheetSchemas⟩

/-- Fold TemplateBuilder.Sheet over a list of associations (one chained call
per entry). -/
def TemplateBuilder.sheetList (b : TemplateBuilder)
    (ss : List (String × SheetSchema)) : TemplateBuilder :=
  ss.foldl (fun acc p => acc.sheet p.1 p.2) b

/-- De-duplicate a list of names preserving the first occurrence of each. -/
def dedupFirst (l : List String) : List String :=
  l.foldl (fun acc x => if x ∈ acc then acc else acc ++ [x]) []

/-- Modelled from the spec: TemplateBuilder.Build de-duplicates RequiredSheets
preserving first occurrences and freezes the template. -/
def TemplateBuilder.build (b : TemplateBuilder) : Template :=
  ⟨b.name, dedupFirst b.requiredSheets, b.strictSheets, b.sheetSchemas⟩

/-- A table with the given number of data rows, for the row-count examples. -/
def mkRowsTable (n : Nat) : Table :=
  ⟨"T1", ["Name"], List.replicate n [CellType.string]⟩

/-- Schema expecting between 1 and 100 data rows, from the spec's row-count
example. -/
def schema1to100 : SheetSchema :=
  ⟨"", [], [], [], TypeStrictness.strict, false, false, 1, 100, false⟩

/-- Table whose single column holds 6 Number cells and 4 String cells, from
the spec's column-type example. -/
def exTypeTable : Table :=
  ⟨"T1", ["Value"],
    List.replicate 6 [CellType.number] ++ List.replicate 4 [CellType.string]⟩

/-- Schema expecting column Value to hold Numbers, Lenient strictness. -/
def exLenientSchema : SheetSchema :=
  ⟨"", [], [], [("Value", CellType.number)], TypeStrictness.lenient,
    false, false, 0, 0, false⟩

/-- Schema expecting column Value to hold Numbers, Strict strictness. -/
def exStrictSchema : SheetSchema :=
  ⟨"", [], [], [("Value", CellType.number)], TypeStrictness.strict,
    false, false, 0, 0, false⟩

/-- Schema requiring columns A then C in order, from the spec's order
example. -/
def exOrderSchema : SheetSchema :=
  ⟨"", ["A", "C"], [], [], TypeStrictness.strict, true, false, 0, 0, false⟩

/-- Table with headers A, B, C. -/
def tableABC : Table := ⟨"T1", ["A", "B", "C"], []⟩

/-- Table with headers C, A, B. -/
def tableCAB : Table := ⟨"T1", ["C", "A", "B"], []⟩

/-- Table with headers Name and Value, from the ValidateColumns example. -/
def tableNameValue : Table := ⟨"T1", ["Name", "Value"], []⟩

/-- Schema mirroring the direct-struct example of the demonstrated program:
requires column Name, at least one data row, MaxRows left at its zero
value. -/
def directSchema : SheetSchema :=
  ⟨"", ["Name"], [], [], TypeStrictness.strict, false, false, 1, 0, false⟩

/-- Workbook with one sheet named Sheet1 holding one large table. -/
def wbMany : Workbook :=
  ⟨[⟨"Sheet1", [⟨"T1", ["Name"], List.replicate 500 [CellType.string]⟩]⟩]⟩

/-- Template mirroring the direct-struct example of the demonstrated
program. -/
def directTemplate : Template :=
  ⟨"DirectTemplate", ["Sheet1"], false, [("Sheet1", directSchema)]⟩

/-- Workbook with one empty sheet named Sheet1, for the sheet-level
examples. -/
def wbSheet1 : Workbook := ⟨[⟨"Sheet1", []⟩]⟩

/-- Template requiring sheets Sheet1 and Ghost, with no schemas. -/
def tplGhost : Template := ⟨"SheetCheck", ["Sheet1", "Ghost"], false, []⟩

/-! ## Helper lemmas -/

theorem mem_checkRequiredColumns_type {sh tb : String} {t : Table}
    {s : SheetSchema} {e : ValidationError}
    (h : e ∈ checkRequiredColumns sh tb t s) :
    e.type = ErrorType.missingColumn := by
  simp only [checkRequiredColumns, List.mem_filterMap] at h
  obtain ⟨c, _, hc⟩ := h
  split at hc
  · exact absurd hc (by simp)
  · simp only [Option.some.injEq] at hc
    subst hc
    rfl

theorem mem_checkColumnOrder_type {sh tb : String} {t : Table}
    {s : SheetSchema} {e : ValidationError}
    (h : e ∈ checkColumnOrder sh tb t s) :
    e.type = ErrorType.columnOrder := by
  unfold checkColumnOrder at h
  split at h
  · exact absurd h (by simp)
  · split at h
    · exact absurd h (by simp)
    · simp only [List.mem_singleton] at h
      subst h
      rfl

theorem mem_checkStrictColumns_type {sh tb : String} {t : Table}
    {s : SheetSchema} {e : ValidationError}
    (h : e ∈ checkStrictColumns sh tb t s) :
    e.type = ErrorType.unexpectedColumn := by
  unfold checkStrictColumns at h
  split at h
  · exact absurd h (by simp)
  · simp only [List.mem_filterMap] at h
    obtain ⟨c, _, hc⟩ := h
    split at hc
    · exact absurd hc (by simp)
    · simp only [Option.some.injEq] at hc
      subst hc
      rfl

theorem mem_checkColumnTypes_type {sh tb : String} {t : Table}
    {s : SheetSchema} {e : ValidationError}
    (h : e ∈ checkColumnTypes sh tb t s) :
    e.type = ErrorType.columnType := by
  simp only [checkColumnTypes, List.mem_filterMap] at h
  obtain ⟨p, _, hp⟩ := h
  split at hp
  · simp only [Option.some.injEq] at hp
    subst hp
    rfl
  · exact absurd hp (by simp)

theorem mem_checkRowCount_type {sh tb : String} {t : Table}
    {s : SheetSchema} {e : ValidationError}
    (h : e ∈ checkRowCount sh tb t s) :
    e.type = ErrorType.rowCount := by
  unfold checkRowCount at h
  split at h
  · simp only [List.mem_singleton] at h
    subst h
    rfl
  · exact absurd h (by simp)

theorem mem_checkSchema_not_sheetKind {sh tb : String} {t : Table}
    {s : SheetSchema} {e : ValidationError} (h : e ∈ checkSchema sh tb t s) :
    e.type ≠ ErrorType.missingSheet ∧ e.type ≠ ErrorType.unexpectedSheet := by
  simp only [checkSchema, List.mem_append] at h
  rcases h with ((((h | h) | h) | h) | h)
  · rw [mem_checkRequiredColumns_type h]; exact ⟨by simp, by simp⟩
  · rw [mem_checkColumnOrder_type h]; exact ⟨by simp, by simp⟩
  · rw [mem_checkStrictColumns_type h]; exact ⟨by simp, by simp⟩
  · rw [mem_checkColumnTypes_type h]; exact ⟨by simp, by simp⟩
  · rw [mem_checkRowCount_type h]; exact ⟨by simp, by simp⟩

theorem mem_sheetEntryErrors_not_sheetKind {wb : Workbook}
    {p : String × SheetSchema} {e : ValidationError}
    (h : e ∈ sheetEntryErrors wb p) :
    e.type ≠ ErrorType.missingSheet ∧ e.type ≠ ErrorType.unexpectedSheet := by
  unfold sheetEntryErrors at h
  split at h
  · exact absurd h (by simp)
  · split at h
    · simp only [List.mem_singleton] at h
      subst h
      exact ⟨by simp [missingTableErr], by simp [missingTableErr]⟩
    · exact mem_checkSchema_not_sheetKind h

theorem mem_schemaErrors_not_sheetKind {wb : Workbook} {tpl : Template}
    {e : ValidationError} (h : e ∈ schemaErrors wb tpl) :
    e.type ≠ ErrorType.missingSheet ∧ e.type ≠ ErrorType.unexpectedSheet := by
  simp only [schemaErrors, List.mem_flatMap] at h
  obtain ⟨p, _, hp⟩ := h
  exact mem_sheetEntryErrors_not_sheetKind hp

theorem mem_missingSheetErrors_type {wb : Workbook} {tpl : Template}
    {e : ValidationError} (h : e ∈ missingSheetErrors wb tpl) :
    e.type = ErrorType.missingSheet := by
  simp only [missingSheetErrors, List.mem_filterMap] at h
  obtain ⟨n, _, hn⟩ := h
  split at hn
  · exact absurd hn (by simp)
  · simp only [Option.some.injEq] at hn
    subst hn
    rfl

theorem mem_unexpectedSheetErrors_type {wb : Workbook} {tpl : Template}
    {e : ValidationError} (h : e ∈ unexpectedSheetErrors wb tpl) :
    e.type = ErrorType.unexpectedSheet := by
  unfold unexpectedSheetErrors at h
  split at h
  · exact absurd h (by simp)
  · simp only [List.mem_filterMap] at h
    obtain ⟨sh, _, hsh⟩ := h
    split at hsh
    · exact absurd hsh (by simp)
    · simp only [Option.some.injEq] at hsh
      subst hsh
      rfl

theorem mem_missingSheetErrors_iff (wb : Workbook) (tpl : Template)
    (name : String) :
    missingSheetErr name ∈ missingSheetErrors wb tpl ↔
      name ∈ tpl.requiredSheets ∧ findSheet wb name = none := by
  simp only [missingSheetErrors, List.mem_filterMap]
  constructor
  · rintro ⟨n, hn, hf⟩
    cases hfind : findSheet wb n with
    | some s => rw [hfind] at hf; exact absurd hf (by simp)
    | none =>
        rw [hfind] at hf
        simp only [Option.some.injEq] at hf
        have hname : n = name := by
          have := congrArg ValidationError.sheet hf
          simpa [missingSheetErr] using this
        subst hname
        exact ⟨hn, hfind⟩
  · rintro ⟨hn, hf⟩
    exact ⟨name, hn, by rw [hf]⟩

theorem mem_unexpectedSheetErrors_iff (wb : Workbook) (tpl : Template)
    (name : String) :
    unexpectedSheetErr name ∈ unexpectedSheetErrors wb tpl ↔
      tpl.strictSheets = true ∧ (∃ sh ∈ wb.sheets, sh.name = name) ∧
        name ∉ tpl.requiredSheets ∧ name ∉ schemaKeys tpl := by
  unfold unexpectedSheetErrors
  split
  · rename_i hfalse
    simp [hfalse]
  · rename_i htrue
    have hstrict : tpl.strictSheets = true := by
      cases hb : tpl.strictSheets
      · exact absurd hb htrue
      · rfl
    simp only [List.mem_filterMap, hstrict, true_and]
    constructor
    · rintro ⟨sh, hsh, hf⟩
      split at hf
      · exact absurd hf (by simp)
      · rename_i hcond
        simp only [Option.some.injEq] at hf
        have hname : sh.name = name := by
          have := congrArg ValidationError.sheet hf
          simpa [unexpectedSheetErr] using this
        rw [hname] at hcond
        push_neg at hcond
        exact ⟨⟨sh, hsh, hname⟩, hcond.1, hcond.2⟩
    · rintro ⟨⟨sh, hsh, hname⟩, hr, hk⟩
      refine ⟨sh, hsh, ?_⟩
      rw [if_neg (by rw [hname]; exact fun hc => hc.elim hr hk)]
      rw [hname]

theorem missingSheetErr_injective : Function.Injective missingSheetErr := by
  intro a b h
  have := congrArg ValidationError.sheet h
  simpa [missingSheetErr] using this

theorem missingSheetErrors_eq_map (wb : Workbook) (tpl : Template) :
    missingSheetErrors wb tpl =
      (tpl.requiredSheets.filter (fun n => (findSheet wb n).isNone)).map
        missingSheetErr := by
  unfold missingSheetErrors
  generalize tpl.requiredSheets = l
  induction l with
  | nil => rfl
  | cons n l ih =>
      simp only [List.filterMap_cons, List.filter_cons]
      cases hf : findSheet wb n <;> simp [hf, ih]

theorem count_missingSheetErrors_le_one (wb : Workbook) (tpl : Template)
    (hnd : tpl.requiredSheets.Nodup) (name : String) :
    (missingSheetErrors wb tpl).count (missingSheetErr name) ≤ 1 := by
  rw [missingSheetErrors_eq_map]
  have hn : ((tpl.requiredSheets.filter
      (fun n => (findSheet wb n).isNone)).map missingSheetErr).Nodup :=
    List.Nodup.map missingSheetErr_injective
      (List.Nodup.filter _ hnd)
  exact List.nodup_iff_count_le_one.mp hn _

theorem validateColumns_foldl (t : Table) (names acc : List String) :
    names.foldl (fun acc n => if n ∈ t.headers then acc else acc ++ [n]) acc =
      acc ++ names.filter (fun n => decide (n ∉ t.headers)) := by
  induction names generalizing acc with
  | nil => simp
  | cons n ns ih =>
      simp only [List.foldl_cons, List.filter_cons]
      by_cases hmem : n ∈ t.headers
      · rw [if_pos hmem]
        simp [hmem, ih]
      · rw [if_neg hmem]
        simp [hmem, ih]

theorem dedupFirst_go (l : List String) :
    ∀ acc : List String, l.Nodup → (∀ x ∈ l, x ∉ acc) →
      l.foldl (fun acc x => if x ∈ acc then acc else acc ++ [x]) acc =
        acc ++ l := by
  induction l with
  | nil => intro acc _ _; simp
  | cons x xs ih =>
      intro acc hnd hdisj
      obtain ⟨hx, hxs⟩ := List.nodup_cons.mp hnd
      simp only [List.foldl_cons]
      rw [if_neg (hdisj x (by simp))]
      rw [ih (acc ++ [x]) hxs ?_]
      · simp
      · intro y hy
        simp only [List.mem_append, List.mem_singleton]
        rintro (hya | rfl)
        · exact hdisj y (by simp [hy]) hya
        · exact hx hy

theorem dedupFirst_of_nodup (l : List String) (h : l.Nodup) :
    dedupFirst l = l := by
  unfold dedupFirst
  simpa using dedupFirst_go l [] h (by simp)

theorem upsertSchema_of_not_mem (l : List (String × SheetSchema)) (k : String)
    (v : SheetSchema) (h : k ∉ l.map Prod.fst) :
    upsertSchema l k v = l ++ [(k, v)] := by
  induction l with
  | nil => rfl
  | cons p rest ih =>
      simp only [List.map_cons, List.mem_cons] at h
      push_neg at h
      unfold upsertSchema
      rw [if_neg (fun he => h.1 he.symm)]
      rw [ih h.2]
      simp

theorem sheetList_eq (nm : String) (rs : List String) (st : Bool)
    (ss : List (String × SheetSchema)) :
    ∀ init : List (String × SheetSchema), (ss.map Prod.fst).Nodup →
      (∀ k ∈ ss.map Prod.fst, k ∉ init.map Prod.fst) →
      TemplateBuilder.sheetList ⟨nm, rs, st, init⟩ ss = ⟨nm, rs, st, init ++ ss⟩ := by
  induction ss with
  | nil => intro init _ _; simp [TemplateBuilder.sheetList]
  | cons p rest ih =>
      intro init hnd hdisj
      simp only [List.map_cons, List.nodup_cons] at hnd
      have hstep : TemplateBuilder.sheet ⟨nm, rs, st, init⟩ p.1 p.2 =
          (⟨nm, rs, st, init ++ [p]⟩ : TemplateBuilder) := by
        simp only [TemplateBuilder.sheet]
        rw [upsertSchema_of_not_mem init p.1 p.2 (hdisj p.1 (by simp))]
      simp only [TemplateBuilder.sheetList, List.foldl_cons]
      rw [hstep]
      have := ih (init ++ [p]) hnd.2 ?_
      · simpa [TemplateBuilder.sheetList] using this
      · intro k hk
        simp only [List.map_append, List.mem_append, List.map_cons,
          List.mem_singleton, List.map_nil]
        rintro (hka | hkp)
        · exact hdisj k (by simp [hk]) hka
        · rw [hkp] at hk
          exact hnd.1 hk

theorem columnIdx_eq_none_of_not_mem (t : Table) (col : String)
    (h : col ∉ t.headers) : columnIdx t col = none := by
  unfold columnIdx
  rw [List.findIdx?_eq_none_iff]
  intro x hx
  simp only [decide_eq_false_iff_not]
  intro he
  rw [he] at hx
  exact h hx

theorem matchCount_le_nonEmptyCount (t : Table) (col : String)
    (exp : CellType) : matchCount t col exp ≤ nonEmptyCount t col :=
  List.length_filter_le _ _

/-! ## Claim theorems -/

/-- C1: for every column listed in ColumnTypes, the type check emits a
ColumnType error exactly when the fraction of sampled non-empty cells whose
inferred type equals the expected type fails the strictness threshold — under
Strict when the fraction is not 1.0 (the match count differs from the
non-empty count), under Lenient when it is below 0.5 (twice the match count is
below the non-empty count); empty cells are excluded from the denominator and
columns absent from the headers are never flagged. -/
theorem columnType_check_correct (sh tb : String) (t : Table)
    (s : SheetSchema) :
    (checkColumnTypes sh tb t s = [] ↔
      ∀ p ∈ s.columnTypes, columnTypeFails t s.typeStrictness p.1 p.2 = false)
    ∧ (∀ (col : String) (exp : CellType), col ∈ t.headers →
        0 < nonEmptyCount t col →
        ((columnTypeFails t TypeStrictness.strict col exp = true ↔
            matchCount t col exp ≠ nonEmptyCount t col)
          ∧ (columnTypeFails t TypeStrictness.lenient col exp = true ↔
              2 * matchCount t col exp < nonEmptyCount t col)))
    ∧ (∀ (col : String) (exp : CellType), col ∉ t.headers →
        columnTypeFails t s.typeStrictness col exp = false) := by
  refine ⟨?_, ?_, ?_⟩
  · simp only [checkColumnTypes, List.filterMap_eq_nil_iff]
    constructor
    · intro h p hp
      cases hb : columnTypeFails t s.typeStrictness p.1 p.2
      · rfl
      · have := h p hp
        rw [if_pos hb] at this
        exact absurd this (by simp)
    · intro h p hp
      rw [if_neg (by rw [h p hp]; simp)]
  · intro col exp _ hpos
    have hle := matchCount_le_nonEmptyCount t col exp
    constructor
    · unfold columnTypeFails
      rw [if_neg (by omega)]
      simp only [decide_eq_true_eq]
      omega
    · unfold columnTypeFails
      rw [if_neg (by omega)]
      simp only [decide_eq_true_eq]
  · intro col exp hmem
    have h0 : nonEmptyCount t col = 0 := by
      unfold nonEmptyCount nonEmptyCells columnCells
      rw [columnIdx_eq_none_of_not_mem t col hmem]
      rfl
    simp [columnTypeFails, h0]

/-- Witness for C1: the spec's example column of 10 non-empty sampled values,
6 Number and 4 String — Lenient emits no ColumnType error, Strict emits
one. -/
theorem columnType_check_witness :
    (("Value" ∈ exTypeTable.headers) ∧ 0 < nonEmptyCount exTypeTable "Value")
    ∧ ((columnTypeFails exTypeTable TypeStrictness.strict "Value"
          CellType.number = true ↔
        matchCount exTypeTable "Value" CellType.number ≠
          nonEmptyCount exTypeTable "Value")
      ∧ (columnTypeFails exTypeTable TypeStrictness.lenient "Value"
            CellType.number = true ↔
          2 * matchCount exTypeTable "Value" CellType.number <
            nonEmptyCount exTypeTable "Value"))
    ∧ checkColumnTypes "S" "T" exTypeTable exLenientSchema = []
    ∧ checkColumnTypes "S" "T" exTypeTable exStrictSchema ≠ [] :=
  ⟨⟨by decide, by decide⟩,
    (columnType_check_correct "S" "T" exTypeTable exStrictSchema).2.1 "Value"
      CellType.number (by decide) (by decide),
    by decide, by decide⟩

/-- C2: when ExpectOrder is set, the order check passes exactly when the
table's headers filtered down to the members of RequiredColumns equal
RequiredColumns, and any deviation yields exactly one ColumnOrder error
identifying the first mismatch position. -/
theorem columnOrder_check_correct (sh tb : String) (t : Table)
    (s : SheetSchema) (h : s.expectOrder = true) :
    (checkColumnOrder sh tb t s = [] ↔
      orderedRequired t s = s.requiredColumns)
    ∧ (orderedRequired t s ≠ s.requiredColumns →
        checkColumnOrder sh tb t s =
          [columnOrderErr sh tb
            (firstMismatch (orderedRequired t s) s.requiredColumns)]) := by
  unfold checkColumnOrder
  rw [if_neg (by simp [h])]
  constructor
  · constructor
    · intro hnil
      by_contra hne
      rw [if_neg hne] at hnil
      exact absurd hnil (by simp)
    · intro heq
      rw [if_pos heq]
  · intro hne
    rw [if_neg hne]

/-- Witness for C2: Headers A,B,C with RequiredColumns A,C in order pass;
Headers C,A,B with the same RequiredColumns yield the single ColumnOrder
error. -/
theorem columnOrder_check_witness :
    exOrderSchema.expectOrder = true ∧
    checkColumnOrder "S" "T" tableABC exOrderSchema = [] ∧
    checkColumnOrder "S" "T" tableCAB exOrderSchema =
      [columnOrderErr "S" "T"
        (firstMismatch (orderedRequired tableCAB exOrderSchema)
          exOrderSchema.requiredColumns)] :=
  ⟨rfl,
    (columnOrder_check_correct "S" "T" tableABC exOrderSchema rfl).1.mpr
      (by decide),
    (columnOrder_check_correct "S" "T" tableCAB exOrderSchema rfl).2
      (by decide)⟩

/-- C3: the row-count check emits a RowCount error exactly when the number of
data rows is below MinRows or above a bounded (non-zero) MaxRows, at most one
error is ever emitted, and on the spec's example schema with MinRows 1 and
MaxRows 100 a 0-row table errs, a 50-row table passes and a 101-row table
errs. -/
theorem rowCount_check_correct :
    (∀ (sh tb : String) (t : Table) (s : SheetSchema),
      checkRowCount sh tb t s ≠ [] ↔
        (t.rows.length < s.minRows ∨
          (s.maxRows ≠ 0 ∧ s.maxRows < t.rows.length)))
    ∧ (∀ (sh tb : String) (t : Table) (s : SheetSchema),
        checkRowCount sh tb t s = [] ∨
          checkRowCount sh tb t s =
            [rowCountErr sh tb s.minRows s.maxRows t.rows.length])
    ∧ (checkRowCount "S" "T" (mkRowsTable 0) schema1to100 ≠ [] ∧
        checkRowCount "S" "T" (mkRowsTable 50) schema1to100 = [] ∧
        checkRowCount "S" "T" (mkRowsTable 101) schema1to100 ≠ []) := by
  refine ⟨?_, ?_, by decide, by decide, by decide⟩
  · intro sh tb t s
    unfold checkRowCount
    split
    · rename_i hcond
      constructor
      · intro _
        rcases hcond with ⟨h0, _, hmin⟩ | h | h
        · left; omega
        · left; exact h
        · right; exact h
      · intro _
        simp
    · rename_i hcond
      constructor
      · intro hne
        exact absurd rfl hne
      · rintro (h | ⟨hmx, h⟩)
        · exact absurd (Or.inr (Or.inl h)) hcond
        · exact absurd (Or.inr (Or.inr ⟨hmx, h⟩)) hcond
  · intro sh tb t s
    unfold checkRowCount
    split
    · exact Or.inr rfl
    · exact Or.inl rfl

/-- C6: a ValidationResult's Valid flag holds exactly when its error list is
empty, and the error list is the concatenation, in detection order, of the
missing-sheet errors, the unexpected-sheet errors and the per-schema check
errors — no check is short-circuited by an earlier failure. -/
theorem result_valid_iff (wb : Workbook) (tpl : Template) :
    ((ValidateTemplate wb tpl).valid = true ↔
      (ValidateTemplate wb tpl).errors = [])
    ∧ (ValidateTemplate wb tpl).errors =
        missingSheetErrors wb tpl ++ unexpectedSheetErrors wb tpl ++
          schemaErrors wb tpl :=
  ⟨List.isEmpty_iff, rfl⟩

/-- C7: ValidateColumns returns the ordered subsequence of the given names
not found in the table's headers (the filter of the names by absence, hence a
sublist preserving caller order), it is empty exactly when every named column
is present, and on Headers Name,Value the names Name,Value,Ghost give exactly
Ghost. -/
theorem validateColumns_correct :
    (∀ (t : Table) (names : List String),
      ValidateColumns t names =
        names.filter (fun n => decide (n ∉ t.headers)))
    ∧ (∀ (t : Table) (names : List String),
        (ValidateColumns t names).Sublist names)
    ∧ (∀ (t : Table) (names : List String),
        ValidateColumns t names = [] ↔ ∀ n ∈ names, n ∈ t.headers)
    ∧ ValidateColumns tableNameValue ["Name", "Value", "Ghost"] = ["Ghost"] := by
  have hfilter : ∀ (t : Table) (names : List String),
      ValidateColumns t names =
        names.filter (fun n => decide (n ∉ t.headers)) := by
    intro t names
    unfold ValidateColumns
    simpa using validateColumns_foldl t names []
  refine ⟨hfilter, ?_, ?_, by decide⟩
  · intro t names
    rw [hfilter]
    exact List.filter_sublist names
  · intro t names
    rw [hfilter, List.filter_eq_nil_iff]
    constructor
    · intro h n hn
      have := h n hn
      simpa using this
    · intro h n hn
      simpa using h n hn

set_option maxRecDepth 8192 in
/-- C10: a SheetSchema whose MaxRows is left at its zero value imposes no
upper bound on the row count — any table with at least MinRows data rows
passes the row-count check — and the direct-struct template of the
demonstrated program yields no RowCount error on a 500-row table. -/
theorem maxRows_zero_unbounded :
    (∀ (sh tb : String) (t : Table) (s : SheetSchema),
      s.maxRows = 0 → s.minRows ≤ t.rows.length →
        checkRowCount sh tb t s = [])
    ∧ (ValidateTemplate wbMany directTemplate).errors.filter
        (fun e => decide (e.type = ErrorType.rowCount)) = [] := by
  constructor
  · intro sh tb t s hmx hmn
    unfold checkRowCount
    rw [if_neg]
    rintro (⟨h0, _, hpos⟩ | h | ⟨hne, _⟩)
    · omega
    · omega
    · exact hne hmx
  · decide

set_option maxRecDepth 8192 in
/-- Witness for C10: the zero-MaxRows schema of the direct-struct example
accepts a 300-row table. -/
theorem maxRows_zero_unbounded_witness :
    checkRowCount "S" "T" (mkRowsTable 300) directSchema = [] :=
  maxRows_zero_unbounded.1 "S" "T" (mkRowsTable 300) directSchema (by decide)
    (by decide)

/-- C4: a MissingSheet error for a name appears in the result exactly when
that name is required and no workbook sheet bears it, there is never more
than one such error per name (and exactly one per missing required name), and
required names that are present are recorded into SheetsValidated instead. -/
theorem missingSheet_correct (wb : Workbook) (tpl : Template)
    (hnd : tpl.requiredSheets.Nodup) (name : String) :
    (missingSheetErr name ∈ (ValidateTemplate wb tpl).errors ↔
      name ∈ tpl.requiredSheets ∧ findSheet wb name = none)
    ∧ (ValidateTemplate wb tpl).errors.count (missingSheetErr name) ≤ 1
    ∧ (name ∈ tpl.requiredSheets → findSheet wb name = none →
        (ValidateTemplate wb tpl).errors.count (missingSheetErr name) = 1)
    ∧ (name ∈ tpl.requiredSheets → findSheet wb name ≠ none →
        name ∈ (ValidateTemplate wb tpl).sheetsValidated) := by
  have herrs : (ValidateTemplate wb tpl).errors =
      missingSheetErrors wb tpl ++ unexpectedSheetErrors wb tpl ++
        schemaErrors wb tpl := rfl
  have hnotB : missingSheetErr name ∉ unexpectedSheetErrors wb tpl := by
    intro h
    have := mem_unexpectedSheetErrors_type h
    simp [missingSheetErr] at this
  have hnotC : missingSheetErr name ∉ schemaErrors wb tpl := by
    intro h
    have := (mem_schemaErrors_not_sheetKind h).1
    simp [missingSheetErr] at this
  have hB0 : List.count (missingSheetErr name) (unexpectedSheetErrors wb tpl)
      = 0 := List.count_eq_zero.mpr hnotB
  have hC0 : List.count (missingSheetErr name) (schemaErrors wb tpl) = 0 :=
    List.count_eq_zero.mpr hnotC
  have hA1 := count_missingSheetErrors_le_one wb tpl hnd name
  refine ⟨?_, ?_, ?_, ?_⟩
  · rw [herrs]
    simp only [List.mem_append]
    constructor
    · rintro ((h | h) | h)
      · exact (mem_missingSheetErrors_iff wb tpl name).mp h
      · exact absurd h hnotB
      · exact absurd h hnotC
    · intro h
      exact Or.inl (Or.inl ((mem_missingSheetErrors_iff wb tpl name).mpr h))
  · rw [herrs, List.count_append, List.count_append]
    omega
  · intro hmem hnone
    rw [herrs, List.count_append, List.count_append]
    have hApos : 0 < List.count (missingSheetErr name)
        (missingSheetErrors wb tpl) :=
      List.count_pos_iff.mpr
        ((mem_missingSheetErrors_iff wb tpl name).mpr ⟨hmem, hnone⟩)
    omega
  · intro hmem hsome
    show name ∈ sheetsValidatedList wb tpl
    simp only [sheetsValidatedList, List.mem_filter]
    refine ⟨hmem, ?_⟩
    cases hf : findSheet wb name with
    | none => exact absurd hf hsome
    | some s => simp

/-- Witness for C4: on a workbook holding only Sheet1 and a template requiring
Sheet1 and Ghost, the MissingSheet characterization holds at the name
Ghost. -/
theorem missingSheet_correct_witness :
    (missingSheetErr "Ghost" ∈ (ValidateTemplate wbSheet1 tplGhost).errors ↔
      "Ghost" ∈ tplGhost.requiredSheets ∧ findSheet wbSheet1 "Ghost" = none)
    ∧ (ValidateTemplate wbSheet1 tplGhost).errors.count
        (missingSheetErr "Ghost") ≤ 1
    ∧ ("Ghost" ∈ tplGhost.requiredSheets → findSheet wbSheet1 "Ghost" = none →
        (ValidateTemplate wbSheet1 tplGhost).errors.count
          (missingSheetErr "Ghost") = 1)
    ∧ ("Ghost" ∈ tplGhost.requiredSheets → findSheet wbSheet1 "Ghost" ≠ none →
        "Ghost" ∈ (ValidateTemplate wbSheet1 tplGhost).sheetsValidated) :=
  missingSheet_correct wbSheet1 tplGhost (by decide) "Ghost"

/-- C5: an UnexpectedSheet error for a name appears in the result exactly when
StrictSheets is set and some workbook sheet bears that name while the name is
neither in RequiredSheets nor among the SheetSchemas keys. -/
theorem unexpectedSheet_correct (wb : Workbook) (tpl : Template)
    (name : String) :
    unexpectedSheetErr name ∈ (ValidateTemplate wb tpl).errors ↔
      tpl.strictSheets = true ∧ (∃ sh ∈ wb.sheets, sh.name = name) ∧
        name ∉ tpl.requiredSheets ∧ name ∉ schemaKeys tpl := by
  have herrs : (ValidateTemplate wb tpl).errors =
      missingSheetErrors wb tpl ++ unexpectedSheetErrors wb tpl ++
        schemaErrors wb tpl := rfl
  have hnotA : unexpectedSheetErr name ∉ missingSheetErrors wb tpl := by
    intro h
    have := mem_missingSheetErrors_type h
    simp [unexpectedSheetErr] at this
  have hnotC : unexpectedSheetErr name ∉ schemaErrors wb tpl := by
    intro h
    have := (mem_schemaErrors_not_sheetKind h).2
    simp [unexpectedSheetErr] at this
  rw [herrs]
  simp only [List.mem_append]
  constructor
  · rintro ((h | h) | h)
    · exact absurd h hnotA
    · exact (mem_unexpectedSheetErrors_iff wb tpl name).mp h
    · exact absurd h hnotC
  · intro h
    exact Or.inl (Or.inr ((mem_unexpectedSheetErrors_iff wb tpl name).mpr h))

/-- C8: QuickValidate returns the same ValidationResult as building a Template
with no required-sheets constraint and a single anonymous Schema requiring the
given columns in the workbook's first sheet's first table and calling
ValidateTemplate with it. -/
theorem quickValidate_eq_template (wb : Workbook) (cols : List String) :
    QuickValidate wb cols = ValidateTemplate wb (quickTemplate wb cols) := by
  cases wb with
  | mk sheets =>
      cases sheets with
      | nil => rfl
      | cons sh rest =>
          have hfind : findSheet ⟨sh :: rest⟩ sh.name = some sh := by
            simp [findSheet, List.find?]
          cases htables : sh.tables with
          | nil =>
              simp [QuickValidate, ValidateTemplate, quickTemplate,
                missingSheetErrors, unexpectedSheetErrors, schemaErrors,
                sheetEntryErrors, hfind, resolveTable, htables,
                sheetsValidatedList, tablesValidatedList, sheetEntryTables,
                quickSchema]
          | cons t ts =>
              simp [QuickValidate, ValidateTemplate, quickTemplate,
                missingSheetErrors, unexpectedSheetErrors, schemaErrors,
                sheetEntryErrors, hfind, resolveTable, htables,
                sheetsValidatedList, tablesValidatedList, sheetEntryTables,
                quickSchema]

/-- C9: a Template assembled through the builder path (NewTemplate,
RequireSheets, Sheet calls, Build) from the same field values as a directly
constructed Template struct yields the identical ValidationResult — same
error list, order and Summary — from ValidateTemplate. -/
theorem builder_direct_equiv (wb : Workbook) (nm : String) (rs : List String)
    (ss : List (String × SheetSchema)) (h1 : rs.Nodup)
    (h2 : (ss.map Prod.fst).Nodup) :
    ValidateTemplate wb ((((NewTemplate nm).requireSheets rs).sheetList
        ss).build) = ValidateTemplate wb ⟨nm, rs, false, ss⟩
    ∧ (ValidateTemplate wb ((((NewTemplate nm).requireSheets rs).sheetList
        ss).build)).summary =
      (ValidateTemplate wb ⟨nm, rs, false, ss⟩).summary := by
  have hstep : (NewTemplate nm).requireSheets rs =
      (⟨nm, rs, false, []⟩ : TemplateBuilder) := by
    simp [NewTemplate, TemplateBuilder.requireSheets]
  have hb : (((NewTemplate nm).requireSheets rs).sheetList ss).build =
      (⟨nm, rs, false, ss⟩ : Template) := by
    rw [hstep, sheetList_eq nm rs false ss [] h2 (by simp)]
    simp [TemplateBuilder.build, dedupFirst_of_nodup rs h1]
  rw [hb]
  exact ⟨rfl, rfl⟩

/-- Witness for C9: the direct-struct template of the demonstrated program and
its builder-path equivalent validate the workbook identically. -/
theorem builder_direct_equiv_witness :
    ValidateTemplate wbSheet1 ((((NewTemplate "DirectTemplate").requireSheets
        ["Sheet1"]).sheetList [("Sheet1", directSchema)]).build) =
      ValidateTemplate wbSheet1
        ⟨"DirectTemplate", ["Sheet1"], false, [("Sheet1", directSchema)]⟩ :=
  (builder_direct_equiv wbSheet1 "DirectTemplate" ["Sheet1"]
    [("Sheet1", directSchema)] (by decide) (by decide)).1

end Goxcel
